import Mathlib

/-!
Shallow embedding of the classic-cars REST API (Express + SQLite).

Sources embedded:
  - `src/middleware/checkApiKey.js` (shipped as `src/unnamed/part_000`): the
    API-key gate `checkApiKey`.
  - `src/controllers/usersControllers.js`: the five CRUD handlers
    `getAllCars`, `getCarById`, `createCar`, `updateCar`, `deleteCar`.
  - `src/database.js`: the `cars` table schema (NOT NULL columns `brand`,
    `model`, `year`; autoincrement `id`; server-assigned `created_at`).

Modelling decisions, all taken from the source code:
  - JSON body values are modelled by `JVal` (null, string, integer number).
    JavaScript numbers are carried as `Int`: no arithmetic is ever performed
    on them by the handlers, they are only stored and echoed, so the carrier
    is irrelevant to every property proved here.
  - A destructured request-body field is `Option JVal`: `none` is JavaScript
    `undefined` (key absent).  JavaScript truthiness of such a field is
    `jsTruthy` (undefined, null, empty string and 0 are falsy).
  - The sqlite3 driver binds `undefined` and `null` parameters as SQL NULL
    (`bindVal`); the NOT NULL constraints of `src/database.js` reject a NULL
    in `brand`, `model` or `year` with a constraint error whose text lands in
    the handler's 500 response (`notNullViolation`).
  - The store is `DB`: the list of persisted rows plus the autoincrement
    counter.  `SELECT * FROM cars WHERE id = ?` with a bound text path
    parameter matches a row when the parameter is the decimal form of the
    row's integer id (`idMatches`, `findById`); `ORDER BY year DESC` is a
    sort by SQLite's comparison order on stored values (`jvalLt`: NULL
    before numbers before text), realised with `List.insertionSort`.
  - `res.json` drops `undefined` object fields, so response `data` objects
    built from destructured body fields omit absent keys (`objField`).
  - Engine I/O failures (disk errors etc.) are outside the pure store model;
    the only store failures modelled are the declared NOT NULL constraint
    violations, which are the ones the handler code can actually trigger.
-/

/-- A JSON / SQLite value as the handlers manipulate it. -/
inductive JVal where
  | null : JVal
  | str : String → JVal
  | num : Int → JVal
deriving DecidableEq, Repr

/-- JavaScript truthiness of a destructured body field (`none` = undefined). -/
def jsTruthy : Option JVal → Bool
  | none => false
  | some .null => false
  | some (.str s) => s != ""
  | some (.num n) => n != 0

/-- Parameter binding of the sqlite3 driver: `undefined` and `null` both bind
as SQL NULL, strings and numbers bind as themselves. -/
def bindVal : Option JVal → JVal
  | none => .null
  | some v => v

/-- SQLite comparison order on stored values: NULL sorts before numeric
values, numeric values before text; numbers compare numerically and text
compares by the default BINARY collation. -/
def jvalLt : JVal → JVal → Bool
  | .null, .null => false
  | .null, .str _ => true
  | .null, .num _ => true
  | .num _, .null => false
  | .num a, .num b => a < b
  | .num _, .str _ => true
  | .str _, .null => false
  | .str _, .num _ => false
  | .str a, .str b => decide (a < b)

/-- A persisted row of the `cars` table (`src/database.js`).  The insert
paths only ever store non-NULL `brand`, `model`, `year`; that is enforced by
`notNullViolation`, not by this type, because the constraint lives in the
store, not in the handlers. -/
structure Car where
  id : Nat
  brand : JVal
  model : JVal
  year : JVal
  color : JVal
  price : JVal
  mileage : JVal
  description : JVal
  created_at : String
deriving DecidableEq, Repr

/-- The store: persisted rows plus the autoincrement counter. -/
structure DB where
  rows : List Car
  nextId : Nat
deriving DecidableEq, Repr

/-- Store well-formedness: every persisted id is below the autoincrement
counter (what `INTEGER PRIMARY KEY AUTOINCREMENT` maintains). -/
def DB.Wf (db : DB) : Prop :=
  ∀ c ∈ db.rows, c.id < db.nextId

/-- The destructured request body of the create/update handlers:
`const { brand, model, year, color, price, mileage, description } = req.body`. -/
structure Payload where
  brand : Option JVal
  model : Option JVal
  year : Option JVal
  color : Option JVal
  price : Option JVal
  mileage : Option JVal
  description : Option JVal
deriving DecidableEq, Repr

/-- The seven column values a write statement binds, after driver binding. -/
structure BoundVals where
  brand : JVal
  model : JVal
  year : JVal
  color : JVal
  price : JVal
  mileage : JVal
  description : JVal
deriving DecidableEq, Repr

def Payload.bind (p : Payload) : BoundVals :=
  { brand := bindVal p.brand
    model := bindVal p.model
    year := bindVal p.year
    color := bindVal p.color
    price := bindVal p.price
    mileage := bindVal p.mileage
    description := bindVal p.description }

/-- The NOT NULL constraints of the `cars` schema, checked at bind time in
column order; `some msg` is the sqlite3 error text surfaced in `err.message`. -/
def notNullViolation (b : BoundVals) : Option String :=
  if b.brand = .null then some "SQLITE_CONSTRAINT: NOT NULL constraint failed: cars.brand"
  else if b.model = .null then some "SQLITE_CONSTRAINT: NOT NULL constraint failed: cars.model"
  else if b.year = .null then some "SQLITE_CONSTRAINT: NOT NULL constraint failed: cars.year"
  else none

/-- The `data` field of a JSON response: an object built from request input,
a single fetched row, or the fetched row list (rows serialise with all nine
columns, `created_at` included). -/
inductive RData where
  | obj : List (String × JVal) → RData
  | car : Car → RData
  | cars : List Car → RData
deriving DecidableEq, Repr

/-- A JSON response as the handlers shape it: HTTP status plus the envelope
fields; absent envelope fields are `none` / `false`. -/
structure Response where
  status : Nat := 200
  success : Bool := false
  error : Option String := none
  message : Option String := none
  details : Option String := none
  count : Option Nat := none
  data : Option RData := none
deriving DecidableEq, Repr

/-- One key of a response `data` object built from a destructured body
field: `res.json` drops the key when the field is `undefined`. -/
def objField (k : String) (v : Option JVal) : List (String × JVal) :=
  match v with
  | none => []
  | some w => [(k, w)]

/-- The body-echo part of the `data` object the create and update handlers
answer with: the seven destructured fields in declaration order, absent
(`undefined`) fields dropped by `res.json`. -/
def echoObj (p : Payload) : List (String × JVal) :=
  objField "brand" p.brand ++ (objField "model" p.model ++
  (objField "year" p.year ++ (objField "color" p.color ++
  (objField "price" p.price ++ (objField "mileage" p.mileage ++
  objField "description" p.description)))))

/-- The row an accepted INSERT persists: the generated id, the seven bound
column values, and the store-assigned `created_at`. -/
def newCarOf (p : Payload) (now : String) (n : Nat) : Car :=
  { id := n
    brand := bindVal p.brand
    model := bindVal p.model
    year := bindVal p.year
    color := bindVal p.color
    price := bindVal p.price
    mileage := bindVal p.mileage
    description := bindVal p.description
    created_at := now }

/-- Outcome of the gate middleware: a response sent by the gate, or `next()`. -/
inductive GateResult where
  | blocked : Response → GateResult
  | next : GateResult
deriving DecidableEq, Repr

/-- The configured shared secret of `checkApiKey.js`. -/
def validApiKey : String := "ma-super-cle-api-2024"

/-- The gate's 401 response (missing credential branch). -/
def unauthorizedResp : Response :=
  { status := 401
    error := some "Non autorisé"
    message := some "Clé API manquante. Ajoutez le header x-api-key à votre requête" }

/-- The gate's 403 response (bad credential branch). -/
def forbiddenResp : Response :=
  { status := 403
    error := some "Accès refusé"
    message := some "Clé API invalide" }

/-- `checkApiKey`: reads the `x-api-key` header (`none` when absent).
`if (!apiKey)` fires on an absent header and on the empty string, both falsy
in JavaScript; then `apiKey !== validApiKey` sends 403; otherwise `next()`. -/
def checkApiKey (h : Option String) : GateResult :=
  match h with
  | none => .blocked unauthorizedResp
  | some k =>
    if k = "" then .blocked unauthorizedResp
    else if k ≠ validApiKey then .blocked forbiddenResp
    else .next

/-- Accumulating decimal parser over the characters of a path parameter. -/
def digitsToNat (acc : Nat) : List Char → Option Nat
  | [] => some acc
  | ch :: cs =>
    if ch.isDigit then digitsToNat (acc * 10 + (ch.toNat - 48)) cs else none

/-- The numeric reading SQLite applies to a TEXT operand compared against
the INTEGER-affinity id column: a non-empty all-digit string reads as the
decimal integer it spells, anything else reads as no integer. -/
def parseDecimal (s : String) : Option Nat :=
  if s.data.isEmpty then none else digitsToNat 0 s.data

/-- `WHERE id = ?` with the text path parameter bound: the TEXT value is
compared against the INTEGER-affinity id column, so it matches exactly when
it reads as the row's integer id. -/
def idMatches (s : String) (c : Car) : Bool :=
  match parseDecimal s with
  | none => false
  | some n => c.id == n

/-- `SELECT * FROM cars WHERE id = ?` via `db.get`: the first matching row. -/
def findById (db : DB) (s : String) : Option Car :=
  db.rows.find? (idMatches s)

/-- Sort key of `ORDER BY year DESC`: the earlier row's year is not below
the later row's in SQLite order. -/
def yearGe (a b : Car) : Prop :=
  jvalLt a.year b.year = false

instance : DecidableRel yearGe := fun a b =>
  inferInstanceAs (Decidable (jvalLt a.year b.year = false))

/-- `getAllCars`: `SELECT * FROM cars ORDER BY year DESC`, answered with the
success envelope, `count` the number of returned rows.  Always 200. -/
def getAllCars (db : DB) : Response :=
  let rows := List.insertionSort yearGe db.rows
  { status := 200
    success := true
    message := some "Liste des voitures récupérée"
    count := some rows.length
    data := some (.cars rows) }

/-- `getCarById`: look the row up; absent row answers 404 with the id echoed
in the message, present row answers 200 with the full row as `data`. -/
def getCarById (s : String) (db : DB) : Response :=
  match findById db s with
  | none =>
    { status := 404
      error := some "Voiture non trouvée"
      message := some ("Aucune voiture avec l\x27ID " ++ s) }
  | some row =>
    { status := 200
      success := true
      message := some "Voiture trouvée"
      data := some (.car row) }

/-- `createCar`: `if (!brand || !model || !year)` answers 400 with no write;
otherwise INSERT the seven bound values (a NOT NULL violation would answer
500, unreachable past the truthiness guard) and answer 201 echoing the input
fields plus `this.lastID`; `created_at` is assigned by the store (`now`) and
not echoed. -/
def createCar (p : Payload) (now : String) (db : DB) : Response × DB :=
  if jsTruthy p.brand && jsTruthy p.model && jsTruthy p.year then
    let b := p.bind
    match notNullViolation b with
    | some msg =>
      ({ status := 500
         error := some "Erreur lors de la création"
         details := some msg }, db)
    | none =>
      ({ status := 201
         success := true
         message := some "Voiture créée avec succès"
         data := some (.obj (("id", .num (Int.ofNat db.nextId)) :: echoObj p)) },
       { rows := db.rows ++ [newCarOf p now db.nextId]
         nextId := db.nextId + 1 })
  else
    ({ status := 400
       error := some "Données invalides"
       message := some "Les champs brand, model et year sont obligatoires" }, db)

/-- `updateCar`: look the row up (absent answers 404, no write); then UPDATE
all seven columns to the bound values on every row matching the id — a NOT
NULL violation answers 500 with the store's error text in `details` and
leaves the store unchanged — and answer 200 with `data` rebuilt from the
request's id and the destructured body, not from a fresh read. -/
def updateCar (s : String) (p : Payload) (db : DB) : Response × DB :=
  match findById db s with
  | none => ({ status := 404, error := some "Voiture non trouvée" }, db)
  | some _ =>
    let b := p.bind
    match notNullViolation b with
    | some msg =>
      ({ status := 500
         error := some "Erreur lors de la mise à jour"
         details := some msg }, db)
    | none =>
      ({ status := 200
         success := true
         message := some "Voiture mise à jour avec succès"
         data := some (.obj (("id", .str s) :: echoObj p)) },
       { db with rows := db.rows.map fun c =>
           if idMatches s c then
             { c with brand := b.brand
                      model := b.model
                      year := b.year
                      color := b.color
                      price := b.price
                      mileage := b.mileage
                      description := b.description }
           else c })

/-- `deleteCar`: look the row up (absent answers 404); then
`DELETE FROM cars WHERE id = ?` and answer 200 with `data` the echoed id. -/
def deleteCar (s : String) (db : DB) : Response × DB :=
  match findById db s with
  | none => ({ status := 404, error := some "Voiture non trouvée" }, db)
  | some _ =>
    ({ status := 200
       success := true
       message := some "Voiture supprimée avec succès"
       data := some (.obj [("id", .str s)]) },
     { db with rows := db.rows.filter fun c => ! idMatches s c })

/-! ### Concrete sample data (used by witnesses and counterexamples) -/

/-- The empty store right after schema creation. -/
def dbEmpty : DB := { rows := [], nextId := 1 }

/-- A fixed store-assigned timestamp value. -/
def sampleTs : String := "2024-01-01 00:00:00"

/-- A persisted sample row, id 1. -/
def car1 : Car :=
  { id := 1
    brand := .str "Ferrari"
    model := .str "250 GTO"
    year := .num 1962
    color := .null
    price := .null
    mileage := .null
    description := .null
    created_at := sampleTs }

/-- A store holding exactly `car1`. -/
def db1 : DB := { rows := [car1], nextId := 2 }

/-- The spec's create scenario payload: brand, model, year only. -/
def ferrariPayload : Payload :=
  { brand := some (.str "Ferrari")
    model := some (.str "250 GTO")
    year := some (.num 1962)
    color := none
    price := none
    mileage := none
    description := none }

/-- A payload whose `brand` key is present but carries the empty string. -/
def emptyBrandPayload : Payload :=
  { brand := some (.str "")
    model := some (.str "250 GTO")
    year := some (.num 1962)
    color := none
    price := none
    mileage := none
    description := none }

/-- The spec's full-replace update payload with nulled optional fields and a
null `brand`. -/
def nullBrandPayload : Payload :=
  { brand := some .null
    model := some (.str "Y")
    year := some (.num 2000)
    color := some .null
    price := some .null
    mileage := some .null
    description := some .null }

/-- A full-replace update payload with non-null required fields. -/
def fullPayload : Payload :=
  { brand := some (.str "X")
    model := some (.str "Y")
    year := some (.num 2000)
    color := some .null
    price := some .null
    mileage := some .null
    description := some .null }

/-! ### Order lemmas for `ORDER BY year DESC` -/

theorem jvalLt_asymm (x y : JVal) (h : jvalLt x y = true) : jvalLt y x = false := by
  cases x <;> cases y <;> simp_all [jvalLt] <;>
    first
    | omega
    | exact h.le

theorem jvalLt_ge_trans (x y z : JVal) (hxy : jvalLt x y = false)
    (hyz : jvalLt y z = false) : jvalLt x z = false := by
  cases x <;> cases y <;> cases z <;> simp_all [jvalLt] <;>
    first
    | omega
    | exact le_trans hyz hxy

instance : IsTotal Car yearGe :=
  ⟨fun a b => by
    cases hx : jvalLt a.year b.year with
    | false => exact Or.inl hx
    | true => exact Or.inr (jvalLt_asymm _ _ hx)⟩

instance : IsTrans Car yearGe :=
  ⟨fun _ _ _ hab hbc => jvalLt_ge_trans _ _ _ hab hbc⟩

/-! ### Truthiness and constraint lemmas -/

theorem jsTruthy_bindVal_ne_null (v : Option JVal) (h : jsTruthy v = true) :
    bindVal v ≠ .null := by
  cases v with
  | none => simp [jsTruthy] at h
  | some w => cases w <;> simp_all [jsTruthy, bindVal]

theorem notNullViolation_eq_none (b : BoundVals) (hb : b.brand ≠ .null)
    (hm : b.model ≠ .null) (hy : b.year ≠ .null) : notNullViolation b = none := by
  simp [notNullViolation, hb, hm, hy]

theorem notNullViolation_isSome (b : BoundVals)
    (h : b.brand = .null ∨ b.model = .null ∨ b.year = .null) :
    (notNullViolation b).isSome = true := by
  rcases h with h | h | h <;> by_cases h1 : b.brand = JVal.null <;>
    by_cases h2 : b.model = JVal.null <;> simp_all [notNullViolation]

/-! ### Lookup lemmas for the echoed `data` objects -/

theorem lookup_objField_self (k : String) (v : Option JVal) :
    (objField k v).lookup k = v := by
  cases v <;> simp [objField, List.lookup]

theorem lookup_objField_ne (k q : String) (v : Option JVal)
    (h : (k == q) = false) : (objField q v).lookup k = none := by
  cases v <;> simp [objField, List.lookup, h]

theorem lookup_objField_append_self (k : String) (v : Option JVal)
    (rest : List (String × JVal)) (h : rest.lookup k = none) :
    (objField k v ++ rest).lookup k = v := by
  cases v <;> simp [objField, List.lookup, h]

theorem lookup_objField_append_ne (k q : String) (v : Option JVal)
    (rest : List (String × JVal)) (h : (k == q) = false) :
    (objField q v ++ rest).lookup k = rest.lookup k := by
  cases v <;> simp [objField, List.lookup, h]

/-- Looking up a key that is none of the seven echoed field names misses. -/
theorem lookup_echoObj_none (p : Payload) (k : String)
    (h1 : (k == "brand") = false) (h2 : (k == "model") = false)
    (h3 : (k == "year") = false) (h4 : (k == "color") = false)
    (h5 : (k == "price") = false) (h6 : (k == "mileage") = false)
    (h7 : (k == "description") = false) :
    (echoObj p).lookup k = none := by
  rw [echoObj, lookup_objField_append_ne k "brand" _ _ h1,
    lookup_objField_append_ne k "model" _ _ h2,
    lookup_objField_append_ne k "year" _ _ h3,
    lookup_objField_append_ne k "color" _ _ h4,
    lookup_objField_append_ne k "price" _ _ h5,
    lookup_objField_append_ne k "mileage" _ _ h6,
    lookup_objField_ne k "description" _ h7]

theorem lookup_echoObj_brand (p : Payload) :
    (echoObj p).lookup "brand" = p.brand := by
  rw [echoObj, lookup_objField_append_self "brand" p.brand _ (by
    rw [lookup_objField_append_ne "brand" "model" _ _ (by simp),
      lookup_objField_append_ne "brand" "year" _ _ (by simp),
      lookup_objField_append_ne "brand" "color" _ _ (by simp),
      lookup_objField_append_ne "brand" "price" _ _ (by simp),
      lookup_objField_append_ne "brand" "mileage" _ _ (by simp),
      lookup_objField_ne "brand" "description" _ (by simp)])]

theorem lookup_echoObj_model (p : Payload) :
    (echoObj p).lookup "model" = p.model := by
  rw [echoObj, lookup_objField_append_ne "model" "brand" _ _ (by simp),
    lookup_objField_append_self "model" p.model _ (by
      rw [lookup_objField_append_ne "model" "year" _ _ (by simp),
        lookup_objField_append_ne "model" "color" _ _ (by simp),
        lookup_objField_append_ne "model" "price" _ _ (by simp),
        lookup_objField_append_ne "model" "mileage" _ _ (by simp),
        lookup_objField_ne "model" "description" _ (by simp)])]

theorem lookup_echoObj_year (p : Payload) :
    (echoObj p).lookup "year" = p.year := by
  rw [echoObj, lookup_objField_append_ne "year" "brand" _ _ (by simp),
    lookup_objField_append_ne "year" "model" _ _ (by simp),
    lookup_objField_append_self "year" p.year _ (by
      rw [lookup_objField_append_ne "year" "color" _ _ (by simp),
        lookup_objField_append_ne "year" "price" _ _ (by simp),
        lookup_objField_append_ne "year" "mileage" _ _ (by simp),
        lookup_objField_ne "year" "description" _ (by simp)])]

theorem lookup_echoObj_color (p : Payload) :
    (echoObj p).lookup "color" = p.color := by
  rw [echoObj, lookup_objField_append_ne "color" "brand" _ _ (by simp),
    lookup_objField_append_ne "color" "model" _ _ (by simp),
    lookup_objField_append_ne "color" "year" _ _ (by simp),
    lookup_objField_append_self "color" p.color _ (by
      rw [lookup_objField_append_ne "color" "price" _ _ (by simp),
        lookup_objField_append_ne "color" "mileage" _ _ (by simp),
        lookup_objField_ne "color" "description" _ (by simp)])]

theorem lookup_echoObj_price (p : Payload) :
    (echoObj p).lookup "price" = p.price := by
  rw [echoObj, lookup_objField_append_ne "price" "brand" _ _ (by simp),
    lookup_objField_append_ne "price" "model" _ _ (by simp),
    lookup_objField_append_ne "price" "year" _ _ (by simp),
    lookup_objField_append_ne "price" "color" _ _ (by simp),
    lookup_objField_append_self "price" p.price _ (by
      rw [lookup_objField_append_ne "price" "mileage" _ _ (by simp),
        lookup_objField_ne "price" "description" _ (by simp)])]

theorem lookup_echoObj_mileage (p : Payload) :
    (echoObj p).lookup "mileage" = p.mileage := by
  rw [echoObj, lookup_objField_append_ne "mileage" "brand" _ _ (by simp),
    lookup_objField_append_ne "mileage" "model" _ _ (by simp),
    lookup_objField_append_ne "mileage" "year" _ _ (by simp),
    lookup_objField_append_ne "mileage" "color" _ _ (by simp),
    lookup_objField_append_ne "mileage" "price" _ _ (by simp),
    lookup_objField_append_self "mileage" p.mileage _
      (lookup_objField_ne "mileage" "description" _ (by simp))]

theorem lookup_echoObj_description (p : Payload) :
    (echoObj p).lookup "description" = p.description := by
  rw [echoObj, lookup_objField_append_ne "description" "brand" _ _ (by simp),
    lookup_objField_append_ne "description" "model" _ _ (by simp),
    lookup_objField_append_ne "description" "year" _ _ (by simp),
    lookup_objField_append_ne "description" "color" _ _ (by simp),
    lookup_objField_append_ne "description" "price" _ _ (by simp),
    lookup_objField_append_ne "description" "mileage" _ _ (by simp),
    lookup_objField_self "description" p.description]

/-! ### Claim theorems -/

/-- C1, counterexample: the claim says a present header that differs from
the secret is answered 403, but the present empty-string header — which
differs from the secret — is answered 401 by the missing-credential branch,
because `if (!apiKey)` also fires on the empty string. -/
theorem C1_counterexample :
    ("" : String) ≠ validApiKey ∧
    checkApiKey (some "") = GateResult.blocked unauthorizedResp ∧
    unauthorizedResp.status = 401 ∧
    checkApiKey (some "") ≠ GateResult.blocked forbiddenResp ∧
    forbiddenResp.status = 403 := by
  decide

/-- C1, amended: a request with no `x-api-key` header is answered 401 with
an error and a message field; a present non-empty header different from the
configured secret is answered 403 with an error and a message field; a
header equal to the secret lets the request proceed to the handler. -/
theorem C1_gate (k : String) :
    checkApiKey none = GateResult.blocked unauthorizedResp ∧
    unauthorizedResp.status = 401 ∧
    unauthorizedResp.error.isSome = true ∧
    unauthorizedResp.message.isSome = true ∧
    (k ≠ "" → k ≠ validApiKey →
      checkApiKey (some k) = GateResult.blocked forbiddenResp) ∧
    forbiddenResp.status = 403 ∧
    forbiddenResp.error.isSome = true ∧
    forbiddenResp.message.isSome = true ∧
    checkApiKey (some validApiKey) = GateResult.next := by
  refine ⟨rfl, rfl, rfl, rfl, ?_, rfl, rfl, rfl, ?_⟩
  · intro h1 h2
    simp [checkApiKey, h1, h2]
  · simp [checkApiKey, validApiKey]

/-- C1, witness: the 403 branch of `C1_gate` at the concrete wrong key. -/
theorem C1_gate_witness :
    checkApiKey (some "mauvaise-cle") = GateResult.blocked forbiddenResp :=
  (C1_gate "mauvaise-cle").2.2.2.2.1 (by simp) (by simp [validApiKey])

/-- C9: a present but empty `x-api-key` header takes the falsy-header branch
and is answered 401, not 403 — the gate treats any falsy header value as
absent. -/
theorem C9_empty_key :
    checkApiKey (some "") = GateResult.blocked unauthorizedResp ∧
    unauthorizedResp.status = 401 ∧
    (∀ r, checkApiKey (some "") = GateResult.blocked r → r.status ≠ 403) := by
  refine ⟨rfl, rfl, ?_⟩
  intro r hr
  cases hr
  decide

/-- C2, counterexample: a create payload whose `brand`, `model` and `year`
keys are all present, with `brand` the empty string, is rejected with 400
and inserts nothing, because `if (!brand || ...)` tests truthiness, not
presence, and the empty string is falsy. -/
theorem C2_counterexample :
    emptyBrandPayload.brand.isSome = true ∧
    emptyBrandPayload.model.isSome = true ∧
    emptyBrandPayload.year.isSome = true ∧
    (createCar emptyBrandPayload sampleTs dbEmpty).fst.status = 400 ∧
    (createCar emptyBrandPayload sampleTs dbEmpty).fst.status ≠ 201 ∧
    (createCar emptyBrandPayload sampleTs dbEmpty).snd = dbEmpty := by
  decide

/-- C2, amended: for every create payload whose `brand`, `model` and `year`
are all present and truthy, the create operation appends one new row built
from the bound payload values and answers 201 with a `data` object holding
the generated integer id and each submitted field, with no `created_at`
key. -/
theorem C2_create (p : Payload) (now : String) (db : DB)
    (hb : jsTruthy p.brand = true) (hm : jsTruthy p.model = true)
    (hy : jsTruthy p.year = true) :
    (createCar p now db).fst.status = 201 ∧
    (createCar p now db).fst.success = true ∧
    (∃ o, (createCar p now db).fst.data = some (RData.obj o) ∧
      o.lookup "id" = some (.num (Int.ofNat db.nextId)) ∧
      o.lookup "brand" = p.brand ∧
      o.lookup "model" = p.model ∧
      o.lookup "year" = p.year ∧
      o.lookup "color" = p.color ∧
      o.lookup "price" = p.price ∧
      o.lookup "mileage" = p.mileage ∧
      o.lookup "description" = p.description ∧
      o.lookup "created_at" = none) ∧
    (createCar p now db).snd.rows = db.rows ++ [newCarOf p now db.nextId] ∧
    (createCar p now db).snd.nextId = db.nextId + 1 := by
  have hguard : (jsTruthy p.brand && jsTruthy p.model && jsTruthy p.year) = true := by
    rw [hb, hm, hy]
    rfl
  have hnn : notNullViolation p.bind = none :=
    notNullViolation_eq_none _ (jsTruthy_bindVal_ne_null _ hb)
      (jsTruthy_bindVal_ne_null _ hm) (jsTruthy_bindVal_ne_null _ hy)
  unfold createCar
  rw [hguard, if_pos rfl]
  simp only [hnn]
  refine ⟨trivial, trivial, ?_, trivial, trivial⟩
  refine ⟨("id", .num (Int.ofNat db.nextId)) :: echoObj p, rfl, ?_, ?_, ?_, ?_, ?_, ?_, ?_, ?_, ?_⟩
  · simp [List.lookup]
  · rw [List.lookup, show ("brand" == "id") = false from rfl]
    exact lookup_echoObj_brand p
  · rw [List.lookup, show ("model" == "id") = false from rfl]
    exact lookup_echoObj_model p
  · rw [List.lookup, show ("year" == "id") = false from rfl]
    exact lookup_echoObj_year p
  · rw [List.lookup, show ("color" == "id") = false from rfl]
    exact lookup_echoObj_color p
  · rw [List.lookup, show ("price" == "id") = false from rfl]
    exact lookup_echoObj_price p
  · rw [List.lookup, show ("mileage" == "id") = false from rfl]
    exact lookup_echoObj_mileage p
  · rw [List.lookup, show ("description" == "id") = false from rfl]
    exact lookup_echoObj_description p
  · rw [List.lookup, show ("created_at" == "id") = false from rfl]
    exact lookup_echoObj_none p _ rfl rfl rfl rfl rfl rfl rfl

/-- C2, witness: `C2_create` at the spec scenario — POST of the Ferrari
payload against the empty store. -/
theorem C2_create_witness :
    (createCar ferrariPayload sampleTs dbEmpty).fst.status = 201 ∧
    (createCar ferrariPayload sampleTs dbEmpty).fst.success = true ∧
    (∃ o, (createCar ferrariPayload sampleTs dbEmpty).fst.data = some (RData.obj o) ∧
      o.lookup "id" = some (.num (Int.ofNat dbEmpty.nextId)) ∧
      o.lookup "brand" = ferrariPayload.brand ∧
      o.lookup "model" = ferrariPayload.model ∧
      o.lookup "year" = ferrariPayload.year ∧
      o.lookup "color" = ferrariPayload.color ∧
      o.lookup "price" = ferrariPayload.price ∧
      o.lookup "mileage" = ferrariPayload.mileage ∧
      o.lookup "description" = ferrariPayload.description ∧
      o.lookup "created_at" = none) ∧
    (createCar ferrariPayload sampleTs dbEmpty).snd.rows =
      dbEmpty.rows ++ [newCarOf ferrariPayload sampleTs dbEmpty.nextId] ∧
    (createCar ferrariPayload sampleTs dbEmpty).snd.nextId = dbEmpty.nextId + 1 :=
  C2_create ferrariPayload sampleTs dbEmpty (by decide) (by decide) (by decide)

/-- C3: a create payload missing any of the `brand`, `model` or `year` keys
is answered 400 with an error field, no row is inserted, and a subsequent
List reports the same count as before the call. -/
theorem C3_create_missing (p : Payload) (now : String) (db : DB)
    (h : p.brand = none ∨ p.model = none ∨ p.year = none) :
    (createCar p now db).fst.status = 400 ∧
    (createCar p now db).fst.error.isSome = true ∧
    (createCar p now db).snd = db ∧
    (getAllCars (createCar p now db).snd).count = (getAllCars db).count := by
  have hguard : (jsTruthy p.brand && jsTruthy p.model && jsTruthy p.year) = false := by
    rcases h with h | h | h <;> rw [h] <;> simp [jsTruthy]
  unfold createCar
  rw [hguard]
  exact ⟨rfl, rfl, rfl, rfl⟩

/-- C3, witness: `C3_create_missing` with `brand` absent, `model` and
`year` present, against the singleton store. -/
theorem C3_create_missing_witness :
    (createCar { emptyBrandPayload with brand := none } sampleTs db1).fst.status = 400 ∧
    (createCar { emptyBrandPayload with brand := none } sampleTs db1).fst.error.isSome = true ∧
    (createCar { emptyBrandPayload with brand := none } sampleTs db1).snd = db1 ∧
    (getAllCars (createCar { emptyBrandPayload with brand := none } sampleTs db1).snd).count =
      (getAllCars db1).count :=
  C3_create_missing _ sampleTs db1 (Or.inl rfl)

/-- C4: List always answers 200 with `data` a permutation of the persisted
rows sorted so that no row's year is SQLite-below a later row's year
(descending), and `count` equal to the length of `data`; on an empty store
the data is the empty array and the count 0. -/
theorem C4_list (db : DB) :
    (getAllCars db).status = 200 ∧
    (∃ l, (getAllCars db).data = some (RData.cars l) ∧
      l.Perm db.rows ∧
      List.Sorted yearGe l ∧
      (getAllCars db).count = some l.length) ∧
    (db.rows = [] →
      (getAllCars db).data = some (RData.cars []) ∧
      (getAllCars db).count = some 0) := by
  refine ⟨rfl,
    ⟨List.insertionSort yearGe db.rows, rfl,
      List.perm_insertionSort yearGe db.rows,
      List.sorted_insertionSort yearGe db.rows, rfl⟩, ?_⟩
  intro h
  constructor <;> simp [getAllCars, h, List.insertionSort]

/-- C4, witness: `C4_list` evaluated at the empty store. -/
theorem C4_list_witness :
    dbEmpty.rows = [] ∧
    (getAllCars dbEmpty).status = 200 ∧
    (getAllCars dbEmpty).data = some (RData.cars []) ∧
    (getAllCars dbEmpty).count = some 0 :=
  ⟨rfl, (C4_list dbEmpty).1, ((C4_list dbEmpty).2.2 rfl).1, ((C4_list dbEmpty).2.2 rfl).2⟩

/-- C6: deleting an id that exists answers 200 with `data` the echoed id and
removes the row; immediately deleting the same id again answers 404 and
changes nothing — the effect is idempotent, the status is not. -/
theorem C6_delete_twice (db : DB) (s : String) (c : Car)
    (h : findById db s = some c) :
    (deleteCar s db).fst.status = 200 ∧
    (deleteCar s db).fst.success = true ∧
    (deleteCar s db).fst.data = some (RData.obj [("id", .str s)]) ∧
    findById (deleteCar s db).snd s = none ∧
    (deleteCar s (deleteCar s db).snd).fst.status = 404 ∧
    (deleteCar s (deleteCar s db).snd).snd = (deleteCar s db).snd := by
  have hd : deleteCar s db =
      ({ status := 200, success := true,
         message := some "Voiture supprimée avec succès",
         data := some (RData.obj [("id", .str s)]) },
       { db with rows := db.rows.filter fun c => ! idMatches s c }) := by
    unfold deleteCar
    rw [h]
  have h2 : findById (deleteCar s db).snd s = none := by
    rw [hd]
    show (db.rows.filter fun c => ! idMatches s c).find? (idMatches s) = none
    refine List.find?_eq_none.mpr ?_
    intro x hx
    rw [List.mem_filter] at hx
    simpa using hx.2
  have hmiss : ∀ db2 : DB, findById db2 s = none →
      deleteCar s db2 = ({ status := 404, error := some "Voiture non trouvée" }, db2) := by
    intro db2 h2'
    unfold deleteCar
    rw [h2']
  exact ⟨by rw [hd], by rw [hd], by rw [hd], h2,
    by rw [hmiss _ h2], by rw [hmiss _ h2]⟩

/-- C6, witness: `C6_delete_twice` at the singleton store and id "1". -/
theorem C6_delete_twice_witness :
    findById db1 "1" = some car1 ∧
    (deleteCar "1" db1).fst.status = 200 ∧
    findById (deleteCar "1" db1).snd "1" = none ∧
    (deleteCar "1" (deleteCar "1" db1).snd).fst.status = 404 :=
  ⟨by decide, (C6_delete_twice db1 "1" car1 (by decide)).1,
    (C6_delete_twice db1 "1" car1 (by decide)).2.2.2.1,
    (C6_delete_twice db1 "1" car1 (by decide)).2.2.2.2.1⟩

/-- C8: Get by id answers 404 with an error field exactly when no persisted
row matches the id path parameter — including every non-numeric or
non-positive parameter, which matches no row and is not pre-validated — and
answers 200 with the single matching row as `data` when one exists. -/
theorem C8_get (db : DB) (s : String) :
    (parseDecimal s = none → findById db s = none) ∧
    (findById db s = none →
      (getCarById s db).status = 404 ∧
      (getCarById s db).error.isSome = true) ∧
    (∀ c, findById db s = some c →
      (getCarById s db).status = 200 ∧
      (getCarById s db).success = true ∧
      (getCarById s db).data = some (RData.car c)) := by
  refine ⟨?_, ?_, ?_⟩
  · intro h
    show db.rows.find? (idMatches s) = none
    refine List.find?_eq_none.mpr ?_
    intro x _
    simp [idMatches, h]
  · intro h
    unfold getCarById
    rw [h]
    exact ⟨rfl, rfl⟩
  · intro c h
    unfold getCarById
    rw [h]
    exact ⟨rfl, rfl, rfl⟩

/-- C8, witness: `C8_get` on the singleton store, at the non-numeric id
"abc" (no match, 404) and at the present id "1" (200 with the row). -/
theorem C8_get_witness :
    (getCarById "abc" db1).status = 404 ∧
    (getCarById "abc" db1).error.isSome = true ∧
    (getCarById "1" db1).status = 200 ∧
    (getCarById "1" db1).data = some (RData.car car1) :=
  ⟨((C8_get db1 "abc").2.1 (by decide)).1,
    ((C8_get db1 "abc").2.1 (by decide)).2,
    ((C8_get db1 "1").2.2 car1 (by decide)).1,
    ((C8_get db1 "1").2.2 car1 (by decide)).2.2⟩

/-- C5, counterexample: updating the existing id 1 while supplying `null`
for `brand` does not answer 200 with the fields replaced — the store's NOT
NULL constraint rejects the write, the handler answers 500 and the row keeps
its old values. -/
theorem C5_counterexample :
    findById db1 "1" = some car1 ∧
    (updateCar "1" nullBrandPayload db1).fst.status = 500 ∧
    (updateCar "1" nullBrandPayload db1).fst.status ≠ 200 ∧
    (updateCar "1" nullBrandPayload db1).snd = db1 := by
  decide

/-- C5, amended: for every update on an id that exists in the store whose
supplied `brand`, `model` and `year` bind to non-NULL values, the operation
answers 200 with `data` rebuilt from the request's id and the echoed input
fields (not a fresh read), rewrites exactly the seven editable fields of
every row matching the id to the bound input values — keeping that row's
`id` and `created_at` and leaving every other row unchanged — and keeps the
autoincrement counter. -/
theorem C5_update (db : DB) (s : String) (c : Car) (p : Payload)
    (hfound : findById db s = some c)
    (hb : bindVal p.brand ≠ .null) (hm : bindVal p.model ≠ .null)
    (hy : bindVal p.year ≠ .null) :
    (updateCar s p db).fst.status = 200 ∧
    (updateCar s p db).fst.success = true ∧
    (updateCar s p db).fst.data = some (RData.obj (("id", .str s) :: echoObj p)) ∧
    (updateCar s p db).snd.nextId = db.nextId ∧
    (updateCar s p db).snd.rows = db.rows.map (fun c0 =>
      if idMatches s c0 then
        { c0 with brand := bindVal p.brand, model := bindVal p.model,
                  year := bindVal p.year, color := bindVal p.color,
                  price := bindVal p.price, mileage := bindVal p.mileage,
                  description := bindVal p.description }
      else c0) := by
  have hnn : notNullViolation p.bind = none := notNullViolation_eq_none _ hb hm hy
  unfold updateCar
  rw [hfound]
  simp only [hnn]
  refine ⟨?_, ?_, ?_, ?_, ?_⟩ <;> trivial

/-- C5, witness: `C5_update` replacing the fields of id 1 with the
full-replace payload (nulled optional fields, non-null required fields). -/
theorem C5_update_witness :
    findById db1 "1" = some car1 ∧
    (updateCar "1" fullPayload db1).fst.status = 200 ∧
    (updateCar "1" fullPayload db1).fst.data =
      some (RData.obj (("id", .str "1") :: echoObj fullPayload)) :=
  ⟨by decide, (C5_update db1 "1" car1 fullPayload (by decide)
      (by decide) (by decide) (by decide)).1,
    (C5_update db1 "1" car1 fullPayload (by decide)
      (by decide) (by decide) (by decide)).2.2.1⟩

/-- C10: updating an existing id while supplying `null` for `brand`,
`model` or `year` is not rejected with 400; the write reaches the store,
the NOT NULL constraint fails it, the handler answers 500 carrying the
store's error text in `details`, and the store is unchanged. -/
theorem C10_update_null (db : DB) (s : String) (c : Car) (p : Payload)
    (hfound : findById db s = some c)
    (hnull : p.brand = some .null ∨ p.model = some .null ∨ p.year = some .null) :
    (updateCar s p db).fst.status = 500 ∧
    (updateCar s p db).fst.status ≠ 400 ∧
    (updateCar s p db).fst.error = some "Erreur lors de la mise à jour" ∧
    (∃ m, notNullViolation p.bind = some m ∧
      (updateCar s p db).fst.details = some m) ∧
    (updateCar s p db).snd = db := by
  have hsome : (notNullViolation p.bind).isSome = true := by
    apply notNullViolation_isSome
    rcases hnull with h | h | h
    · exact Or.inl (by simp [Payload.bind, h, bindVal])
    · exact Or.inr (Or.inl (by simp [Payload.bind, h, bindVal]))
    · exact Or.inr (Or.inr (by simp [Payload.bind, h, bindVal]))
  obtain ⟨m, hm⟩ := Option.isSome_iff_exists.mp hsome
  have hupd : updateCar s p db =
      ({ status := 500, error := some "Erreur lors de la mise à jour",
         details := some m }, db) := by
    unfold updateCar
    rw [hfound]
    simp only [hm]
  refine ⟨by rw [hupd], by rw [hupd]; simp, by rw [hupd],
    ⟨m, hm, by rw [hupd]⟩, by rw [hupd]⟩

/-- C10, witness: `C10_update_null` at id 1 with the null-brand payload. -/
theorem C10_update_null_witness :
    findById db1 "1" = some car1 ∧
    nullBrandPayload.brand = some .null ∧
    (updateCar "1" nullBrandPayload db1).fst.status = 500 ∧
    (updateCar "1" nullBrandPayload db1).snd = db1 :=
  ⟨by decide, rfl,
    (C10_update_null db1 "1" car1 nullBrandPayload (by decide) (Or.inl rfl)).1,
    (C10_update_null db1 "1" car1 nullBrandPayload (by decide) (Or.inl rfl)).2.2.2.2⟩

/-- C7: when a create is accepted (201), fetching by any id parameter that
reads as the generated id answers 200 with the single created row: the
stored brand, model, year, color, price, mileage and description are the
bound created values, and `created_at` is present and carries the
store-assigned timestamp. -/
theorem C7_roundtrip (p : Payload) (now : String) (db : DB) (s : String)
    (hwf : DB.Wf db)
    (h201 : (createCar p now db).fst.status = 201)
    (hs : parseDecimal s = some db.nextId) :
    (getCarById s (createCar p now db).snd).status = 200 ∧
    (getCarById s (createCar p now db).snd).success = true ∧
    (getCarById s (createCar p now db).snd).data =
      some (RData.car (newCarOf p now db.nextId)) ∧
    (newCarOf p now db.nextId).created_at = now := by
  cases hgb : (jsTruthy p.brand && jsTruthy p.model && jsTruthy p.year) with
  | false =>
    exfalso
    unfold createCar at h201
    rw [hgb] at h201
    simp at h201
  | true =>
    obtain ⟨⟨hb, hm⟩, hy⟩ : (jsTruthy p.brand = true ∧ jsTruthy p.model = true) ∧
        jsTruthy p.year = true := by
      constructor
      · constructor
        · exact Bool.and_elim_left (Bool.and_elim_left hgb)
        · exact Bool.and_elim_right (Bool.and_elim_left hgb)
      · exact Bool.and_elim_right hgb
    have hnn : notNullViolation p.bind = none :=
      notNullViolation_eq_none _ (jsTruthy_bindVal_ne_null _ hb)
        (jsTruthy_bindVal_ne_null _ hm) (jsTruthy_bindVal_ne_null _ hy)
    have hsnd : (createCar p now db).snd =
        { rows := db.rows ++ [newCarOf p now db.nextId], nextId := db.nextId + 1 } := by
      unfold createCar
      rw [hgb, if_pos rfl]
      simp only [hnn]
    have hfind : findById (createCar p now db).snd s = some (newCarOf p now db.nextId) := by
      rw [hsnd]
      show (db.rows ++ [newCarOf p now db.nextId]).find? (idMatches s) = _
      rw [List.find?_append]
      have hnone : db.rows.find? (idMatches s) = none := by
        refine List.find?_eq_none.mpr ?_
        intro x hx
        have hlt := hwf x hx
        simp [idMatches, hs]
        omega
      rw [hnone]
      simp [List.find?, idMatches, hs, newCarOf]
    unfold getCarById
    rw [hfind]
    exact ⟨rfl, rfl, rfl, rfl⟩

/-- C7, witness: `C7_roundtrip` for the Ferrari create against the empty
store, fetched back at id "1". -/
theorem C7_roundtrip_witness :
    (createCar ferrariPayload sampleTs dbEmpty).fst.status = 201 ∧
    parseDecimal "1" = some dbEmpty.nextId ∧
    (getCarById "1" (createCar ferrariPayload sampleTs dbEmpty).snd).status = 200 ∧
    (getCarById "1" (createCar ferrariPayload sampleTs dbEmpty).snd).data =
      some (RData.car (newCarOf ferrariPayload sampleTs dbEmpty.nextId)) :=
  ⟨by decide, by decide,
    (C7_roundtrip ferrariPayload sampleTs dbEmpty "1"
      (by intro c hc; simp [dbEmpty] at hc) (by decide) (by decide)).1,
    (C7_roundtrip ferrariPayload sampleTs dbEmpty "1"
      (by intro c hc; simp [dbEmpty] at hc) (by decide) (by decide)).2.2.1⟩
